import Mathlib

/-!
Shallow embedding of `src/posix++/local_socket.cc` (libposix).

The file wraps Unix-domain stream sockets: construction (`socket(2)`),
`pair` (`socketpair(2)`), `bind`, `connect`, `accept`, and transfer of a
file descriptor over a connected socket via `sendmsg`/`recvmsg` with a
single `SCM_RIGHTS` ancillary record.

Kernel calls are modelled by explicit result lists: each element is one
outcome of issuing the call (success, or failure with an errno).  The
`goto retry` loops of the source consume the list until a non-`EINTR`
outcome appears.  Error classification mirrors each `switch (errno)`
statement of the source.  Numeric constants are the Linux values the
source is compiled against.
-/

namespace LocalSocket

/-! ## Platform constants (Linux) -/

def AF_LOCAL : Nat := 1
def SOL_SOCKET : Nat := 1
def SCM_RIGHTS : Nat := 1

def EINTR : Nat := 4
def EBADF : Nat := 9
def ENOMEM : Nat := 12
def EFAULT : Nat := 14
def EINVAL : Nat := 22
def ENFILE : Nat := 23
def EMFILE : Nat := 24
def ENOBUFS : Nat := 105

/-- `sizeof(int)` on the target platform. -/
def sizeof_int : Nat := 4

/-- `sizeof(struct cmsghdr)` on LP64 Linux: a `size_t` length plus two `int` tags. -/
def sizeof_cmsghdr : Nat := 16

/-- `sizeof(sa_family_t)`: the `sun_family` tag of `struct sockaddr_un`. -/
def sizeof_sun_family : Nat := 2

/-- Capacity of the fixed `sun_path` buffer of `struct sockaddr_un` on Linux. -/
def sun_path_capacity : Nat := 108

/-- `CMSG_ALIGN`: round up to the word size (8 bytes on LP64). -/
def CMSG_ALIGN (n : Nat) : Nat := (n + 7) / 8 * 8

/-- `CMSG_LEN(n)`: aligned header size plus `n` data bytes. -/
def CMSG_LEN (n : Nat) : Nat := CMSG_ALIGN sizeof_cmsghdr + n

/-- `CMSG_SPACE(n)`: aligned header size plus aligned data size. -/
def CMSG_SPACE (n : Nat) : Nat := CMSG_ALIGN sizeof_cmsghdr + CMSG_ALIGN n

/-! ## Failure taxonomy

The source throws `posix::error(errno)`, `posix::fatal_error(errno)`,
`posix::bad_descriptor()`, or (only in `recv_descriptor`)
`std::logic_error(msg)`. -/

inductive Failure where
  | err (code : Nat)
  | fatal (code : Nat)
  | badDescriptor
  | logicError (msg : String)
deriving DecidableEq, Repr

/-- Outcome of one kernel call: success or failure with an errno. -/
inductive KResult where
  | ok
  | fail (errno : Nat)
deriving DecidableEq, Repr

/-- Outcome of one whole operation of the wrapper.  `looping` means every
kernel result consumed so far was `EINTR`, so the `goto retry` loop is still
running; `assertFailed` models a failed `assert`. -/
inductive OpOutcome (α : Type) where
  | assertFailed
  | looping
  | thrown (f : Failure)
  | done (v : α)
deriving DecidableEq, Repr

/-! ## Errno switches, one per source function -/

/-- The `switch (errno)` of the default constructor (`::socket` failure),
lines 33-41: `EMFILE`, `ENFILE`, `ENOBUFS`, `ENOMEM` are fatal, anything
else is an ordinary error. -/
def socket_errno_switch (e : Nat) : Failure :=
  if e = EMFILE ∨ e = ENFILE ∨ e = ENOBUFS ∨ e = ENOMEM then .fatal e
  else .err e

/-- The `switch (errno)` of `pair` (`::socketpair` failure), lines 60-67:
`EMFILE`, `ENFILE`, `ENOMEM` are fatal, anything else is ordinary. -/
def pair_errno_switch (e : Nat) : Failure :=
  if e = EMFILE ∨ e = ENFILE ∨ e = ENOMEM then .fatal e
  else .err e

/-- The non-`EINTR` part of the `switch (errno)` of `bind` (`::bind`
failure), lines 93-102. -/
def bind_errno_switch (e : Nat) : Failure :=
  if e = ENOMEM then .fatal e
  else if e = EBADF then .badDescriptor
  else .err e

/-- The non-`EINTR` part of the `switch (errno)` of `connect` (`::connect`
failure), lines 122-129. -/
def connect_errno_switch (e : Nat) : Failure :=
  if e = EBADF then .badDescriptor
  else .err e

/-- The non-`EINTR` part of the `switch (errno)` of `accept` (`::accept`
failure), lines 147-159. -/
def accept_errno_switch (e : Nat) : Failure :=
  if e = EMFILE ∨ e = ENFILE ∨ e = ENOBUFS ∨ e = ENOMEM then .fatal e
  else if e = EBADF then .badDescriptor
  else .err e

/-- The non-`EINTR` part of the `switch (errno)` of `send_descriptor`
(`::sendmsg` failure), lines 206-215. -/
def sendmsg_errno_switch (e : Nat) : Failure :=
  if e = ENOMEM then .fatal e
  else if e = EBADF then .badDescriptor
  else .err e

/-- The non-`EINTR` part of the `switch (errno)` of `recv_descriptor`
(`::recvmsg` failure), lines 256-265. -/
def recvmsg_errno_switch (e : Nat) : Failure :=
  if e = ENOMEM then .fatal e
  else if e = EBADF then .badDescriptor
  else .err e

/-- The `retry:` loop shared in shape by `bind`, `connect`, `accept` and
`send_descriptor`: consume kernel results, re-issuing the call while the
errno is `EINTR`; classify the first other errno by the operation's switch. -/
def run_loop (sw : Nat → Failure) : List KResult → OpOutcome Unit
  | [] => .looping
  | .ok :: _ => .done ()
  | .fail e :: rest => if e = EINTR then run_loop sw rest else .thrown (sw e)

/-! ## Construction and pair -/

/-- `local_socket::local_socket()`: one `::socket` call, no retry loop. -/
def local_socket_ctor (k : KResult) : OpOutcome Unit :=
  match k with
  | .ok => .done ()
  | .fail e => .thrown (socket_errno_switch e)

/-- `local_socket::pair()`: one `::socketpair` call, no retry loop. -/
def local_socket_pair (k : KResult) : OpOutcome Unit :=
  match k with
  | .ok => .done ()
  | .fail e => .thrown (pair_errno_switch e)

/-! ## Address construction for bind / connect -/

/-- The bytes `strcpy` writes into `sun_path`: every source byte up to and
including the first NUL, with no bound check against the destination
capacity. -/
def strcpy_bytes : List Nat → List Nat
  | [] => []
  | b :: rest => if b = 0 then [0] else b :: strcpy_bytes rest

/-- `std::strlen` over a byte list: bytes before the first NUL. -/
def strlen : List Nat → Nat
  | [] => 0
  | b :: rest => if b = 0 then 0 else 1 + strlen rest

/-- `struct sockaddr_un` as filled in by `bind`/`connect`: the family tag
and the bytes actually written into `sun_path` (lines 85-87 / 114-116). -/
structure sockaddr_un where
  sun_family : Nat
  sun_path : List Nat
deriving DecidableEq, Repr

/-- Address building of `bind`/`connect`: `sun_family = AF_LOCAL`, then
`strcpy(addr.sun_path, pathname.c_str())` where `c_str()` is the pathname's
bytes followed by a NUL terminator. -/
def build_sockaddr (path : List Nat) : sockaddr_un :=
  { sun_family := AF_LOCAL, sun_path := strcpy_bytes (path ++ [0]) }

/-- `addrlen = sizeof(addr.sun_family) + std::strlen(addr.sun_path)`
(lines 89 / 118). -/
def bind_addrlen (path : List Nat) : Nat :=
  sizeof_sun_family + strlen (strcpy_bytes (path ++ [0]))

/-- What `bind`/`connect` hand to the kernel call: the address value and
the computed address length. -/
structure AddrCall where
  addr : sockaddr_un
  addrlen : Nat
deriving DecidableEq, Repr

/-- `local_socket::bind(pathname)`: assert non-emptiness, build the
address, then loop on `::bind`, classifying by `bind_errno_switch`. -/
def bind_op (path : List Nat) (ks : List KResult) : OpOutcome AddrCall :=
  if path.isEmpty then .assertFailed
  else
    match run_loop bind_errno_switch ks with
    | .done _ => .done { addr := build_sockaddr path, addrlen := bind_addrlen path }
    | .thrown f => .thrown f
    | .looping => .looping
    | .assertFailed => .assertFailed

/-- `local_socket::connect(pathname)`: assert non-emptiness, build the
address, then loop on `::connect`, classifying by `connect_errno_switch`. -/
def connect_op (path : List Nat) (ks : List KResult) : OpOutcome AddrCall :=
  if path.isEmpty then .assertFailed
  else
    match run_loop connect_errno_switch ks with
    | .done _ => .done { addr := build_sockaddr path, addrlen := bind_addrlen path }
    | .thrown f => .thrown f
    | .looping => .looping
    | .assertFailed => .assertFailed

/-- `local_socket::accept()`: loop on `::accept`, classifying by
`accept_errno_switch`. -/
def accept_op (ks : List KResult) : OpOutcome Unit :=
  run_loop accept_errno_switch ks

/-! ## Descriptor transfer: send -/

/-- One ancillary-data record (`struct cmsghdr` plus its data area).
`cmsg_data` is the integer stored at the record's data offset; the control
buffer is `CMSG_SPACE(sizeof(int))` bytes, so the data area always holds
exactly one such integer. -/
structure cmsghdr where
  cmsg_len : Nat
  cmsg_level : Nat
  cmsg_type : Nat
  cmsg_data : Int
deriving DecidableEq, Repr

/-- The message `send_descriptor` builds: the ordinary payload bytes of
its one `iovec`, and the ancillary records written into the control
buffer. -/
structure msghdr where
  payload : List Nat
  control : List cmsghdr
deriving DecidableEq, Repr

/-- Message construction of `send_descriptor` (lines 183-201): a one-byte
zero payload, and a single record with `cmsg_len = CMSG_LEN(sizeof(int))`,
`cmsg_level = SOL_SOCKET`, `cmsg_type = SCM_RIGHTS`, carrying
`descriptor.fd()`.  The control buffer is `CMSG_SPACE(sizeof(int))` bytes,
which holds exactly one such record. -/
def send_descriptor_msg (handle : Int) : msghdr :=
  { payload := [0]
  , control := [ { cmsg_len := CMSG_LEN sizeof_int
                 , cmsg_level := SOL_SOCKET
                 , cmsg_type := SCM_RIGHTS
                 , cmsg_data := handle } ] }

/-- `local_socket::send_descriptor(descriptor)`: build the message, then
loop on `::sendmsg`, classifying by `sendmsg_errno_switch`. -/
def send_descriptor_op (handle : Int) (ks : List KResult) : OpOutcome msghdr :=
  match run_loop sendmsg_errno_switch ks with
  | .done _ => .done (send_descriptor_msg handle)
  | .thrown f => .thrown f
  | .looping => .looping
  | .assertFailed => .assertFailed

/-! ## Descriptor transfer: receive -/

/-- Outcome of one `::recvmsg` call: the returned byte count and the
ancillary records delivered into the control buffer (the head of the list
is what `CMSG_FIRSTHDR` yields), or a failure errno. -/
inductive RecvKResult where
  | ok (rc : Int) (control : List cmsghdr)
  | fail (errno : Nat)
deriving DecidableEq, Repr

/-- Post-receive ancillary handling of `recv_descriptor` (lines 268-277):
if `CMSG_FIRSTHDR` is null or the record's `cmsg_len` differs from
`CMSG_LEN(sizeof(int))`, the result stays empty; otherwise a level other
than `SOL_SOCKET` or a type other than `SCM_RIGHTS` throws
`std::logic_error`, and else the integer at the data offset is assigned. -/
def recv_extract (control : List cmsghdr) : OpOutcome (Option Int) :=
  match control.head? with
  | none => .done none
  | some cmsg =>
    if cmsg.cmsg_len = CMSG_LEN sizeof_int then
      if cmsg.cmsg_level ≠ SOL_SOCKET then .thrown (.logicError "invalid cmsg_level")
      else if cmsg.cmsg_type ≠ SCM_RIGHTS then .thrown (.logicError "invalid cmsg_type")
      else .done (some cmsg.cmsg_data)
    else .done none

/-- `local_socket::recv_descriptor()`: loop on `::recvmsg` (classifying
failures by `recvmsg_errno_switch`), then run the ancillary handling on
the control data of the successful call.  The returned byte count is only
compared against `-1`; a zero-byte success falls through to the ancillary
handling like any other success. -/
def recv_descriptor_op : List RecvKResult → OpOutcome (Option Int)
  | [] => .looping
  | .ok _rc control :: _ => recv_extract control
  | .fail e :: rest =>
      if e = EINTR then recv_descriptor_op rest
      else .thrown (recvmsg_errno_switch e)

/-! ## Helper lemmas -/

theorem strcpy_bytes_nul_free (path : List Nat) (hnul : 0 ∉ path) :
    strcpy_bytes (path ++ [0]) = path ++ [0] := by
  induction path with
  | nil => simp [strcpy_bytes]
  | cons b rest ih =>
    have hb : b ≠ 0 := fun h => hnul (h ▸ List.mem_cons_self b rest)
    have hrest : 0 ∉ rest := fun h => hnul (List.mem_cons_of_mem b h)
    simp [strcpy_bytes, hb, ih hrest]

theorem strlen_nul_free (path : List Nat) (hnul : 0 ∉ path) :
    strlen (path ++ [0]) = path.length := by
  induction path with
  | nil => simp [strlen]
  | cons b rest ih =>
    have hb : b ≠ 0 := fun h => hnul (h ▸ List.mem_cons_self b rest)
    have hrest : 0 ∉ rest := fun h => hnul (List.mem_cons_of_mem b h)
    simp [strlen, hb, ih hrest, Nat.add_comm]

theorem bind_addrlen_nul_free (path : List Nat) (hnul : 0 ∉ path) :
    bind_addrlen path = sizeof_sun_family + path.length := by
  rw [bind_addrlen, strcpy_bytes_nul_free path hnul, strlen_nul_free path hnul]

theorem run_loop_eintr (sw : Nat → Failure) (ks : List KResult) :
    run_loop sw (KResult.fail EINTR :: ks) = run_loop sw ks := by
  simp [run_loop]

theorem run_loop_eintr_replicate (sw : Nat → Failure) (n : Nat) (ks : List KResult) :
    run_loop sw (List.replicate n (KResult.fail EINTR) ++ ks) = run_loop sw ks := by
  induction n with
  | zero => rfl
  | succ n ih => simpa [List.replicate_succ, run_loop] using ih

theorem run_loop_thrown_code (sw : Nat → Failure) (ks : List KResult) (f : Failure)
    (h : run_loop sw ks = .thrown f) : ∃ e, e ≠ EINTR ∧ f = sw e := by
  induction ks with
  | nil => simp [run_loop] at h
  | cons k rest ih =>
    cases k with
    | ok => simp [run_loop] at h
    | fail e =>
      by_cases he : e = EINTR
      · rw [he, run_loop_eintr] at h
        exact ih h
      · simp [run_loop, he] at h
        exact ⟨e, he, h.symm⟩

theorem bind_op_thrown (path : List Nat) (ks : List KResult) (f : Failure)
    (h : bind_op path ks = .thrown f) : run_loop bind_errno_switch ks = .thrown f := by
  unfold bind_op at h
  by_cases hp : path.isEmpty <;> simp [hp] at h
  cases hrl : run_loop bind_errno_switch ks <;> rw [hrl] at h <;> simp_all

theorem connect_op_thrown (path : List Nat) (ks : List KResult) (f : Failure)
    (h : connect_op path ks = .thrown f) : run_loop connect_errno_switch ks = .thrown f := by
  unfold connect_op at h
  by_cases hp : path.isEmpty <;> simp [hp] at h
  cases hrl : run_loop connect_errno_switch ks <;> rw [hrl] at h <;> simp_all

theorem send_op_thrown (handle : Int) (ks : List KResult) (f : Failure)
    (h : send_descriptor_op handle ks = .thrown f) :
    run_loop sendmsg_errno_switch ks = .thrown f := by
  unfold send_descriptor_op at h
  cases hrl : run_loop sendmsg_errno_switch ks <;> rw [hrl] at h <;> simp_all

theorem run_loop_no_eintr_failure (sw : Nat → Failure)
    (hsw : ∀ e, sw e = .err e ∨ sw e = .fatal e ∨ sw e = .badDescriptor)
    (ks : List KResult) (f : Failure) (h : run_loop sw ks = .thrown f) :
    f ≠ .err EINTR ∧ f ≠ .fatal EINTR := by
  obtain ⟨e, he, rfl⟩ := run_loop_thrown_code sw ks f h
  rcases hsw e with h1 | h1 | h1 <;> rw [h1] <;> exact ⟨by simp [he], by simp [he]⟩

theorem bind_errno_switch_shape (e : Nat) :
    bind_errno_switch e = .err e ∨ bind_errno_switch e = .fatal e ∨
      bind_errno_switch e = .badDescriptor := by
  unfold bind_errno_switch
  split_ifs <;> simp

theorem connect_errno_switch_shape (e : Nat) :
    connect_errno_switch e = .err e ∨ connect_errno_switch e = .fatal e ∨
      connect_errno_switch e = .badDescriptor := by
  unfold connect_errno_switch
  split_ifs <;> simp

theorem accept_errno_switch_shape (e : Nat) :
    accept_errno_switch e = .err e ∨ accept_errno_switch e = .fatal e ∨
      accept_errno_switch e = .badDescriptor := by
  unfold accept_errno_switch
  split_ifs <;> simp

theorem sendmsg_errno_switch_shape (e : Nat) :
    sendmsg_errno_switch e = .err e ∨ sendmsg_errno_switch e = .fatal e ∨
      sendmsg_errno_switch e = .badDescriptor := by
  unfold sendmsg_errno_switch
  split_ifs <;> simp

theorem recvmsg_errno_switch_shape (e : Nat) :
    recvmsg_errno_switch e = .err e ∨ recvmsg_errno_switch e = .fatal e ∨
      recvmsg_errno_switch e = .badDescriptor := by
  unfold recvmsg_errno_switch
  split_ifs <;> simp

theorem recv_extract_thrown (control : List cmsghdr) (f : Failure)
    (h : recv_extract control = .thrown f) : ∃ m, f = .logicError m := by
  unfold recv_extract at h
  cases control with
  | nil => simp at h
  | cons c tail =>
    simp only [List.head?_cons] at h
    split_ifs at h with h1 h2 h3 <;> simp_all
    · exact ⟨"invalid cmsg_level", h.symm⟩
    · exact ⟨"invalid cmsg_type", h.symm⟩

theorem recv_eintr_replicate (n : Nat) (rks : List RecvKResult) :
    recv_descriptor_op (List.replicate n (RecvKResult.fail EINTR) ++ rks) =
      recv_descriptor_op rks := by
  induction n with
  | zero => rfl
  | succ n ih => simpa [List.replicate_succ, recv_descriptor_op] using ih

theorem recv_no_eintr_failure (rks : List RecvKResult) (f : Failure)
    (h : recv_descriptor_op rks = .thrown f) :
    f ≠ .err EINTR ∧ f ≠ .fatal EINTR := by
  induction rks with
  | nil => simp [recv_descriptor_op] at h
  | cons k rest ih =>
    cases k with
    | ok rc control =>
      obtain ⟨m, rfl⟩ := recv_extract_thrown control f h
      exact ⟨by simp, by simp⟩
    | fail e =>
      by_cases he : e = EINTR
      · rw [show recv_descriptor_op (RecvKResult.fail e :: rest) = recv_descriptor_op rest by
          simp [recv_descriptor_op, he]] at h
        exact ih h
      · simp [recv_descriptor_op, he] at h
        rcases recvmsg_errno_switch_shape e with h1 | h1 | h1 <;> rw [h1] at h <;>
          rw [← h] <;> exact ⟨by simp [he], by simp [he]⟩

/-! ## Claim theorems -/

/-- C1: every message built by `send_descriptor` consists of exactly one
ordinary payload byte plus exactly one ancillary record whose level is
`SOL_SOCKET`, whose type is `SCM_RIGHTS`, and whose payload is exactly one
integer handle value equal to the current handle value of the descriptor
being sent. -/
theorem send_descriptor_single_rights_record (handle : Int) :
    (send_descriptor_msg handle).payload.length = 1 ∧
    (send_descriptor_msg handle).control =
      [ { cmsg_len := CMSG_LEN sizeof_int
        , cmsg_level := SOL_SOCKET
        , cmsg_type := SCM_RIGHTS
        , cmsg_data := handle } ] ∧
    sizeof_cmsghdr ≤ CMSG_SPACE sizeof_int ∧
    CMSG_LEN sizeof_int ≤ CMSG_SPACE sizeof_int :=
  ⟨rfl, rfl, by decide, by decide⟩

/-- C2: after a successful receive, if no ancillary record is present or
the first record's declared length differs from `CMSG_LEN(sizeof(int))`,
`recv_descriptor` completes with an empty descriptor and raises no
error. -/
theorem recv_no_or_short_record_empty (rc : Int) (control : List cmsghdr)
    (rest : List RecvKResult)
    (h : ∀ c, control.head? = some c → c.cmsg_len ≠ CMSG_LEN sizeof_int) :
    recv_descriptor_op (RecvKResult.ok rc control :: rest) = .done none := by
  cases control with
  | nil => rfl
  | cons c tail =>
    have hc := h c rfl
    show recv_extract (c :: tail) = .done none
    simp [recv_extract, hc]

/-- Witness for C2 at a receive delivering no ancillary record. -/
theorem recv_no_or_short_record_empty_witness :
    recv_descriptor_op [RecvKResult.ok 1 []] = .done none :=
  recv_no_or_short_record_empty 1 [] [] (by simp)

/-- C3: if an ancillary record of exactly the expected length arrives but
its level is not `SOL_SOCKET` or its type is not `SCM_RIGHTS`, the
operation aborts with `std::logic_error`, distinct from the
ordinary/fatal/bad-descriptor taxonomy, and no descriptor is returned. -/
theorem recv_bad_tags_logic_error (rc : Int) (c : cmsghdr) (tail : List cmsghdr)
    (rest : List RecvKResult)
    (hlen : c.cmsg_len = CMSG_LEN sizeof_int)
    (hbad : c.cmsg_level ≠ SOL_SOCKET ∨ c.cmsg_type ≠ SCM_RIGHTS) :
    ∃ m, recv_descriptor_op (RecvKResult.ok rc (c :: tail) :: rest) =
        .thrown (.logicError m) ∧
      (∀ e, Failure.logicError m ≠ Failure.err e) ∧
      (∀ e, Failure.logicError m ≠ Failure.fatal e) ∧
      Failure.logicError m ≠ Failure.badDescriptor ∧
      (∀ v, recv_descriptor_op (RecvKResult.ok rc (c :: tail) :: rest) ≠ .done v) := by
  by_cases hl : c.cmsg_level = SOL_SOCKET
  · have ht : c.cmsg_type ≠ SCM_RIGHTS := by
      rcases hbad with h1 | h2
      · exact absurd hl h1
      · exact h2
    refine ⟨"invalid cmsg_type", ?_, by simp, by simp, by simp, ?_⟩
    · show recv_extract (c :: tail) = _
      simp [recv_extract, hlen, hl, ht]
    · intro v
      show recv_extract (c :: tail) ≠ _
      simp [recv_extract, hlen, hl, ht]
  · refine ⟨"invalid cmsg_level", ?_, by simp, by simp, by simp, ?_⟩
    · show recv_extract (c :: tail) = _
      simp [recv_extract, hlen, hl]
    · intro v
      show recv_extract (c :: tail) ≠ _
      simp [recv_extract, hlen, hl]

/-- Witness for C3 at a record of the expected length whose level tag is
wrong. -/
theorem recv_bad_tags_logic_error_witness :
    ∃ m, recv_descriptor_op [RecvKResult.ok 1
        [ { cmsg_len := CMSG_LEN sizeof_int, cmsg_level := 2
          , cmsg_type := SCM_RIGHTS, cmsg_data := 5 } ]] =
        .thrown (.logicError m) ∧
      (∀ e, Failure.logicError m ≠ Failure.err e) ∧
      (∀ e, Failure.logicError m ≠ Failure.fatal e) ∧
      Failure.logicError m ≠ Failure.badDescriptor ∧
      (∀ v, recv_descriptor_op [RecvKResult.ok 1
        [ { cmsg_len := CMSG_LEN sizeof_int, cmsg_level := 2
          , cmsg_type := SCM_RIGHTS, cmsg_data := 5 } ]] ≠ .done v) :=
  recv_bad_tags_logic_error 1
    { cmsg_len := CMSG_LEN sizeof_int, cmsg_level := 2
    , cmsg_type := SCM_RIGHTS, cmsg_data := 5 } [] [] rfl (Or.inl (by decide))

/-- C10: a zero-byte receive (peer closed the stream) with no ancillary
record yields an empty descriptor with no error, and is indistinguishable
at the interface from any other successful receive that delivers no
ancillary record. -/
theorem recv_zero_bytes_empty (rest : List RecvKResult) (rc : Int) :
    recv_descriptor_op (RecvKResult.ok 0 [] :: rest) = .done none ∧
    recv_descriptor_op (RecvKResult.ok rc [] :: rest) =
      recv_descriptor_op (RecvKResult.ok 0 [] :: rest) :=
  ⟨rfl, rfl⟩

/-- C4: for every operation issuing a kernel call through a retry loop
(`bind`, `connect`, `accept`, `send_descriptor`, `recv_descriptor`), any
number of `EINTR` failures is absorbed by re-issuing the same call with
unchanged arguments, and an interruption is never surfaced to the caller
as an error. -/
theorem eintr_retried_indefinitely (path : List Nat) (handle : Int) (n : Nat)
    (ks : List KResult) (rks : List RecvKResult) :
    (bind_op path (List.replicate n (KResult.fail EINTR) ++ ks) = bind_op path ks) ∧
    (connect_op path (List.replicate n (KResult.fail EINTR) ++ ks) = connect_op path ks) ∧
    (accept_op (List.replicate n (KResult.fail EINTR) ++ ks) = accept_op ks) ∧
    (send_descriptor_op handle (List.replicate n (KResult.fail EINTR) ++ ks) =
      send_descriptor_op handle ks) ∧
    (recv_descriptor_op (List.replicate n (RecvKResult.fail EINTR) ++ rks) =
      recv_descriptor_op rks) ∧
    (∀ f, bind_op path ks = .thrown f → f ≠ .err EINTR ∧ f ≠ .fatal EINTR) ∧
    (∀ f, connect_op path ks = .thrown f → f ≠ .err EINTR ∧ f ≠ .fatal EINTR) ∧
    (∀ f, accept_op ks = .thrown f → f ≠ .err EINTR ∧ f ≠ .fatal EINTR) ∧
    (∀ f, send_descriptor_op handle ks = .thrown f → f ≠ .err EINTR ∧ f ≠ .fatal EINTR) ∧
    (∀ f, recv_descriptor_op rks = .thrown f → f ≠ .err EINTR ∧ f ≠ .fatal EINTR) := by
  refine ⟨?_, ?_, ?_, ?_, ?_, ?_, ?_, ?_, ?_, ?_⟩
  · unfold bind_op
    rw [run_loop_eintr_replicate]
  · unfold connect_op
    rw [run_loop_eintr_replicate]
  · unfold accept_op
    rw [run_loop_eintr_replicate]
  · unfold send_descriptor_op
    rw [run_loop_eintr_replicate]
  · exact recv_eintr_replicate n rks
  · intro f hf
    exact run_loop_no_eintr_failure bind_errno_switch bind_errno_switch_shape ks f
      (bind_op_thrown path ks f hf)
  · intro f hf
    exact run_loop_no_eintr_failure connect_errno_switch connect_errno_switch_shape ks f
      (connect_op_thrown path ks f hf)
  · intro f hf
    exact run_loop_no_eintr_failure accept_errno_switch accept_errno_switch_shape ks f hf
  · intro f hf
    exact run_loop_no_eintr_failure sendmsg_errno_switch sendmsg_errno_switch_shape ks f
      (send_op_thrown handle ks f hf)
  · intro f hf
    exact recv_no_eintr_failure rks f hf

/-- Witness for C4: three interruptions before a concrete failing `bind`
call leave the outcome unchanged, and the surfaced failure does not carry
`EINTR`. -/
theorem eintr_retried_indefinitely_witness :
    (bind_op [47] (List.replicate 3 (KResult.fail EINTR) ++ [KResult.fail EINVAL]) =
      bind_op [47] [KResult.fail EINVAL]) ∧
    (Failure.err EINVAL ≠ Failure.err EINTR ∧ Failure.err EINVAL ≠ Failure.fatal EINTR) := by
  have H := eintr_retried_indefinitely [47] 0 3 [KResult.fail EINVAL] []
  exact ⟨H.1, H.2.2.2.2.2.1 (Failure.err EINVAL) (by decide)⟩

/-- C5: construction and `accept` classify the resource-exhaustion codes
`EMFILE`, `ENFILE`, `ENOBUFS`, `ENOMEM` as fatal carrying the code; every
other code is an ordinary error carrying the code, except that `accept`
signals `EBADF` distinctly as bad-descriptor (and retries `EINTR`). -/
theorem creation_accept_fatal_classification (e : Nat) :
    ((e = EMFILE ∨ e = ENFILE ∨ e = ENOBUFS ∨ e = ENOMEM) →
      local_socket_ctor (KResult.fail e) = .thrown (.fatal e) ∧
      accept_op [KResult.fail e] = .thrown (.fatal e)) ∧
    ((e ≠ EMFILE ∧ e ≠ ENFILE ∧ e ≠ ENOBUFS ∧ e ≠ ENOMEM) →
      local_socket_ctor (KResult.fail e) = .thrown (.err e) ∧
      (e ≠ EINTR → e ≠ EBADF → accept_op [KResult.fail e] = .thrown (.err e))) ∧
    accept_op [KResult.fail EBADF] = .thrown Failure.badDescriptor := by
  refine ⟨?_, ?_, by decide⟩
  · intro h
    rcases h with rfl | rfl | rfl | rfl <;> exact ⟨by decide, by decide⟩
  · rintro ⟨h1, h2, h3, h4⟩
    constructor
    · simp [local_socket_ctor, socket_errno_switch, h1, h2, h3, h4]
    · intro h5 h6
      simp [accept_op, run_loop, accept_errno_switch, h1, h2, h3, h4, h5, h6]

/-- Witness for C5: `EMFILE` is fatal at creation and at `accept`;
`EINVAL` is an ordinary error at creation. -/
theorem creation_accept_fatal_classification_witness :
    (local_socket_ctor (KResult.fail EMFILE) = .thrown (.fatal EMFILE) ∧
     accept_op [KResult.fail EMFILE] = .thrown (.fatal EMFILE)) ∧
    local_socket_ctor (KResult.fail EINVAL) = .thrown (.err EINVAL) := by
  refine ⟨(creation_accept_fatal_classification EMFILE).1 (by decide), ?_⟩
  exact ((creation_accept_fatal_classification EINVAL).2.1 (by decide)).1

/-- C6: `pair` uses the same fatal/ordinary split as construction but over
a strictly narrower fatal subset: exactly `EMFILE`, `ENFILE`, `ENOMEM` are
fatal — the no-kernel-buffer-space code `ENOBUFS`, fatal at single-socket
creation, is the one construction-fatal code not fatal for `pair` — and
every other code is an ordinary error carrying the code. -/
theorem pair_narrower_fatal_set (e : Nat) :
    (local_socket_pair (KResult.fail e) = .thrown (.fatal e) ↔
      (e = EMFILE ∨ e = ENFILE ∨ e = ENOMEM)) ∧
    (local_socket_pair (KResult.fail e) = .thrown (.fatal e) ↔
      (local_socket_ctor (KResult.fail e) = .thrown (.fatal e) ∧ e ≠ ENOBUFS)) ∧
    (¬(e = EMFILE ∨ e = ENFILE ∨ e = ENOMEM) →
      local_socket_pair (KResult.fail e) = .thrown (.err e)) := by
  by_cases hc : e = EMFILE ∨ e = ENFILE ∨ e = ENOMEM
  · rcases hc with rfl | rfl | rfl <;> refine ⟨by decide, by decide, ?_⟩ <;>
      (intro h; exact absurd (by decide) h)
  · push_neg at hc
    obtain ⟨h1, h2, h3⟩ := hc
    by_cases he : e = ENOBUFS
    · subst he
      exact ⟨by decide, by decide, fun _ => by decide⟩
    · refine ⟨?_, ?_, fun _ => ?_⟩
      · simp [local_socket_pair, pair_errno_switch, h1, h2, h3]
      · simp [local_socket_pair, pair_errno_switch, local_socket_ctor,
          socket_errno_switch, h1, h2, h3, he]
      · simp [local_socket_pair, pair_errno_switch, h1, h2, h3]

/-- Witness for C6: `ENOBUFS` is an ordinary error for `pair` although it
is fatal at single-socket creation. -/
theorem pair_narrower_fatal_set_witness :
    local_socket_pair (KResult.fail ENOBUFS) = .thrown (.err ENOBUFS) ∧
    local_socket_ctor (KResult.fail ENOBUFS) = .thrown (.fatal ENOBUFS) :=
  ⟨(pair_narrower_fatal_set ENOBUFS).2.2 (by decide), by decide⟩

/-- C7: `bind` and `connect` both signal `EBADF` distinctly as
bad-descriptor; `bind` classifies `ENOMEM` as fatal; `connect` classifies
no code as fatal — every non-`EINTR`, non-`EBADF` failure of `connect` is
an ordinary error carrying the code. -/
theorem bind_connect_classification (e : Nat) (path : List Nat) (hp : path ≠ [])
    (ks : List KResult) :
    bind_op path [KResult.fail EBADF] = .thrown Failure.badDescriptor ∧
    connect_op path [KResult.fail EBADF] = .thrown Failure.badDescriptor ∧
    (∀ x, Failure.badDescriptor ≠ Failure.err x) ∧
    bind_op path [KResult.fail ENOMEM] = .thrown (.fatal ENOMEM) ∧
    (e ≠ EINTR → e ≠ EBADF →
      connect_op path [KResult.fail e] = .thrown (.err e)) ∧
    (e ≠ EINTR → e ≠ EBADF → e ≠ ENOMEM →
      bind_op path [KResult.fail e] = .thrown (.err e)) ∧
    (∀ f, connect_op path ks = .thrown f → ∀ x, f ≠ Failure.fatal x) := by
  have hpe : path.isEmpty = false := by simpa using hp
  refine ⟨?_, ?_, by simp, ?_, ?_, ?_, ?_⟩
  · simp [bind_op, hpe, run_loop, bind_errno_switch, EBADF, EINTR, ENOMEM]
  · simp [connect_op, hpe, run_loop, connect_errno_switch, EBADF, EINTR]
  · simp [bind_op, hpe, run_loop, bind_errno_switch, ENOMEM, EINTR]
  · intro h5 h6
    simp [connect_op, hpe, run_loop, connect_errno_switch, h5, h6]
  · intro h5 h6 h7
    simp [bind_op, hpe, run_loop, bind_errno_switch, h5, h6, h7]
  · intro f hf x
    obtain ⟨e0, he0, rfl⟩ :=
      run_loop_thrown_code connect_errno_switch ks f (connect_op_thrown path ks f hf)
    unfold connect_errno_switch
    split_ifs <;> simp

/-- Witness for C7: through a socket bound at path `[47]`, `EINVAL` on
`connect` surfaces as an ordinary error, which is not fatal. -/
theorem bind_connect_classification_witness :
    connect_op [47] [KResult.fail EINVAL] = .thrown (.err EINVAL) ∧
    Failure.err EINVAL ≠ Failure.fatal ENOMEM := by
  have H := bind_connect_classification EINVAL [47] (by decide) [KResult.fail EINVAL]
  exact ⟨H.2.2.2.2.1 (by decide) (by decide),
         H.2.2.2.2.2.2 (Failure.err EINVAL) (by decide) ENOMEM⟩

/-- C8: for every non-empty (NUL-free, per the Pathname data model)
pathname, the address built by `bind` and by `connect` is the
address-family tag followed by the pathname's bytes with a terminating
NUL, and the address length passed to the kernel equals the size of the
family tag plus the pathname's byte length. -/
theorem address_layout (path : List Nat) (hne : path ≠ []) (hnul : 0 ∉ path) :
    bind_op path [KResult.ok] =
      .done { addr := { sun_family := AF_LOCAL, sun_path := path ++ [0] }
            , addrlen := sizeof_sun_family + path.length } ∧
    connect_op path [KResult.ok] =
      .done { addr := { sun_family := AF_LOCAL, sun_path := path ++ [0] }
            , addrlen := sizeof_sun_family + path.length } := by
  have hpe : path.isEmpty = false := by simpa using hne
  constructor
  · simp [bind_op, hpe, run_loop, build_sockaddr,
      strcpy_bytes_nul_free path hnul, bind_addrlen_nul_free path hnul]
  · simp [connect_op, hpe, run_loop, build_sockaddr,
      strcpy_bytes_nul_free path hnul, bind_addrlen_nul_free path hnul]

/-- Witness for C8 at the one-byte pathname `"/"`. -/
theorem address_layout_witness :
    bind_op [47] [KResult.ok] =
      .done { addr := { sun_family := AF_LOCAL, sun_path := [47, 0] }
            , addrlen := sizeof_sun_family + 1 } ∧
    connect_op [47] [KResult.ok] =
      .done { addr := { sun_family := AF_LOCAL, sun_path := [47, 0] }
            , addrlen := sizeof_sun_family + 1 } :=
  address_layout [47] (by decide) (by decide)

/-- C9: `bind` and `connect` validate only non-emptiness (as an
assertion) and copy the pathname into the fixed-capacity `sun_path`
buffer without bound-checking: an oversized pathname is neither rejected
with an error nor truncated before the copy — every byte of it, plus the
terminator, is written even when that exceeds the buffer capacity. -/
theorem oversized_path_not_checked (path : List Nat) (hne : path ≠ []) (hnul : 0 ∉ path)
    (hbig : sun_path_capacity < path.length + 1) :
    (build_sockaddr path).sun_path = path ++ [0] ∧
    sun_path_capacity < (build_sockaddr path).sun_path.length ∧
    (∃ r, bind_op path [KResult.ok] = .done r ∧ r.addr = build_sockaddr path) ∧
    (∃ r, connect_op path [KResult.ok] = .done r ∧ r.addr = build_sockaddr path) ∧
    (∀ q : List Nat, bind_op q [KResult.ok] = .assertFailed ↔ q = []) ∧
    (∀ q : List Nat, connect_op q [KResult.ok] = .assertFailed ↔ q = []) := by
  have hpe : path.isEmpty = false := by simpa using hne
  have hcopy : (build_sockaddr path).sun_path = path ++ [0] := by
    simp [build_sockaddr, strcpy_bytes_nul_free path hnul]
  refine ⟨hcopy, ?_, ?_, ?_, ?_, ?_⟩
  · rw [hcopy]
    simpa using hbig
  · exact ⟨{ addr := build_sockaddr path, addrlen := bind_addrlen path },
      by simp [bind_op, hpe, run_loop], rfl⟩
  · exact ⟨{ addr := build_sockaddr path, addrlen := bind_addrlen path },
      by simp [connect_op, hpe, run_loop], rfl⟩
  · intro q
    rcases q with _ | ⟨b, q⟩
    · simp [bind_op]
    · simp [bind_op, run_loop]
  · intro q
    rcases q with _ | ⟨b, q⟩
    · simp [connect_op]
    · simp [connect_op, run_loop]

/-- Witness for C9 at a 109-byte pathname, one byte over the 108-byte
`sun_path` capacity. -/
theorem oversized_path_not_checked_witness :
    (build_sockaddr (List.replicate 109 47)).sun_path = List.replicate 109 47 ++ [0] ∧
    sun_path_capacity < (build_sockaddr (List.replicate 109 47)).sun_path.length ∧
    (∃ r, bind_op (List.replicate 109 47) [KResult.ok] = .done r ∧
      r.addr = build_sockaddr (List.replicate 109 47)) ∧
    (∃ r, connect_op (List.replicate 109 47) [KResult.ok] = .done r ∧
      r.addr = build_sockaddr (List.replicate 109 47)) ∧
    (∀ q : List Nat, bind_op q [KResult.ok] = .assertFailed ↔ q = []) ∧
    (∀ q : List Nat, connect_op q [KResult.ok] = .assertFailed ↔ q = []) :=
  oversized_path_not_checked (List.replicate 109 47) (by decide) (by decide) (by decide)

end LocalSocket
